import Mathlib

/-!
Verification of the micromdm `connect` service (src/connect/service.go):
the acknowledgment dispatcher over a command store, a device registry and
two inventory stores.  The service functions (`Acknowledge`, `FailCommand`,
`checkRequeue`, `ackQueryResponses`, `ackInstalledApplicationList`,
`ackCertificateList`) are translated directly from the Go source; the
backing stores (command, device, application, certificate packages) are not
part of the excerpt and are modelled from the spec's contracts (§4.1, §6).
-/

namespace Connect

/-- A nullable SQL string: the value together with a validity flag
(`valid = false` means the column is NULL / absent). -/
structure NullString where
  s : String
  valid : Bool
  deriving DecidableEq, Repr

/-- A nullable SQL 64-bit integer (`valid = false` means NULL / absent). -/
structure NullInt64 where
  i : Int
  valid : Bool
  deriving DecidableEq, Repr

/-- Command metadata: identifier, target device UDID and request type
(mirrors the fields of the queued payload the dispatcher consults). -/
structure Command where
  uuid : String
  deviceUDID : String
  requestType : String
  deriving DecidableEq, Repr

/-- A device record of the Device Registry (device package): identity,
reported attributes, last-checkin data and the awaiting-configuration flag. -/
structure Device where
  uuid : String
  udid : String
  serialNumber : NullString
  productName : String
  buildVersion : String
  deviceName : String
  imei : String
  meid : String
  model : String
  osVersion : String
  lastQueryResponse : String
  lastCheckin : Nat
  awaitingConfiguration : Bool
  deriving DecidableEq, Repr

/-- One row of the Application Inventory (application.DeviceApplication). -/
structure DeviceApplication where
  deviceUUID : String
  name : String
  identifier : NullString
  shortVersion : NullString
  version : NullString
  bundleSize : NullInt64
  dynamicSize : NullInt64
  deriving DecidableEq, Repr

/-- One row of the Certificate Inventory (certificate.Certificate). -/
structure Certificate where
  commonName : String
  isIdentity : Bool
  data : List Nat
  deviceUUID : String
  deriving DecidableEq, Repr

/-- The query-response section of an inbound mdm.Response (attribute report
of a DeviceInformation command). -/
structure QueryResponses where
  serialNumber : String
  productName : String
  buildVersion : String
  deviceName : String
  imei : String
  meid : String
  model : String
  osVersion : String
  deriving DecidableEq, Repr

/-- One entry of a reported installed-application list.  The wire fields the
Go code reads: plain strings (absent = empty string) and optional sizes. -/
structure ApplicationListItem where
  name : String
  identifier : String
  shortVersion : String
  version : String
  bundleSize : Option Int
  dynamicSize : Option Int
  deriving DecidableEq, Repr

/-- One entry of a reported certificate list. -/
structure CertificateListItem where
  commonName : String
  isIdentity : Bool
  data : List Nat
  deriving DecidableEq, Repr

/-- An inbound mdm.Response: the acknowledging device's UDID, the command
identifier being acknowledged, and the optional typed payload sections. -/
structure Response where
  udid : String
  commandUUID : String
  queryResponses : QueryResponses
  installedApplicationList : List ApplicationListItem
  certificateList : List CertificateListItem
  deriving DecidableEq, Repr

/-- Modelled from the spec: the Command Store (command package, §4.1) —
the global FIFO queue of pending commands (per-device order is the filter of
this list), the retained metadata that stays resolvable after removal, and a
counter used to assign fresh command identifiers. -/
structure CommandStore where
  queue : List Command
  metadata : List Command
  nextId : Nat
  deriving DecidableEq, Repr

/-- Modelled from the spec: the Device Registry (device package), a durable
per-device record set. -/
structure DeviceStore where
  devices : List Device
  deriving DecidableEq, Repr

/-- Modelled from the spec: the Application Inventory (application package).
`failOn` models persistence failures (§7 store-unavailable): inserting a row
listed there fails. -/
structure AppStore where
  apps : List DeviceApplication
  failOn : List DeviceApplication
  deriving DecidableEq, Repr

/-- Modelled from the spec: the Certificate Inventory (certificate package). -/
structure CertStore where
  certs : List Certificate
  deriving DecidableEq, Repr

/-- The state the stateless dispatcher orchestrates over: the four stores,
plus the current time used for the last-checkin stamp. -/
structure State where
  devices : DeviceStore
  apps : AppStore
  certs : CertStore
  commands : CommandStore
  now : Nat
  deriving DecidableEq, Repr

/-- Modelled from the spec: Command Store FindMetadata — look up a command's
retained metadata by identifier; an unknown identifier signals the
command-not-found condition, rendered as `none`. -/
def findCommand (cs : CommandStore) (commandUUID : String) : Option Command :=
  cs.metadata.find? (fun c => c.uuid == commandUUID)

/-- The commands currently queued for one device, in FIFO order. -/
def commandsFor (cs : CommandStore) (udid : String) : List Command :=
  cs.queue.filter (fun c => c.deviceUDID == udid)

/-- Modelled from the spec: Command Store Remove — delete the identified
command from the device's queue (removing a non-existent identifier is not
an error) and report the number of commands still queued for that device. -/
def deleteCommand (cs : CommandStore) (udid commandUUID : String) :
    CommandStore × Nat :=
  let q := cs.queue.filter (fun c => !(c.deviceUDID == udid && c.uuid == commandUUID))
  let cs' : CommandStore := { cs with queue := q }
  (cs', (commandsFor cs' udid).length)

/-- Modelled from the spec: Command Store Create — append a new command to
the tail of the device's queue, retaining its metadata, and return its
freshly assigned identifier. -/
def newCommand (cs : CommandStore) (udid requestType : String) :
    CommandStore × String :=
  let uuid := "cmd-" ++ toString cs.nextId
  let c : Command := ⟨uuid, udid, requestType⟩
  ({ queue := cs.queue ++ [c], metadata := cs.metadata ++ [c],
     nextId := cs.nextId + 1 }, uuid)

/-- Modelled from the spec: Device Registry lookup-by-UDID; an unknown UDID
is a lookup failure (the app-list routine treats not-found as a hard error). -/
def getDeviceByUDID (ds : DeviceStore) (udid : String) : Except String Device :=
  match ds.devices.find? (fun d => d.udid == udid) with
  | some d => .ok d
  | none => .error "device not found"

/-- Modelled from the spec: Device Registry lookup-by-serial-and-UDID,
returning zero, one or many candidates (SQL equality: a NULL serial never
matches). -/
def devicesBySerialUDID (ds : DeviceStore) (serial udid : String) : List Device :=
  ds.devices.filter (fun d =>
    d.serialNumber == NullString.mk serial true && d.udid == udid)

/-- Modelled from the spec: Device Registry save/overwrite — replace the
record carrying the same surrogate identifier. -/
def saveDevice (ds : DeviceStore) (dev : Device) : DeviceStore :=
  ⟨ds.devices.map (fun d => if d.uuid == dev.uuid then dev else d)⟩

/-- Modelled from the spec: Application Inventory delete-all-for-device. -/
def deleteDeviceApplications (s : AppStore) (deviceUUID : String) : AppStore :=
  { s with apps := s.apps.filter (fun a => a.deviceUUID != deviceUUID) }

/-- Modelled from the spec: Application Inventory insert-one; rows listed in
`failOn` fail to persist (store-unavailable model). -/
def newDeviceApp (s : AppStore) (app : DeviceApplication) :
    AppStore × Option String :=
  if s.failOn.contains app then (s, some "insert failed")
  else ({ s with apps := s.apps ++ [app] }, none)

/-- The Application Inventory rows of one device. -/
def appsFor (s : AppStore) (deviceUUID : String) : List DeviceApplication :=
  s.apps.filter (fun a => a.deviceUUID == deviceUUID)

/-- Modelled from the spec: Certificate Inventory replace-all-for-device, a
single atomic store operation. -/
def replaceCertificatesByDeviceUUID (s : CertStore) (deviceUUID : String)
    (new : List Certificate) : CertStore :=
  ⟨s.certs.filter (fun c => c.deviceUUID != deviceUUID) ++ new⟩

/-- The Certificate Inventory rows of one device. -/
def certsFor (s : CertStore) (deviceUUID : String) : List Certificate :=
  s.certs.filter (fun c => c.deviceUUID == deviceUUID)

/-- Models json.Marshal of the query-response section: an opaque total
encoding stored as the device's last raw snapshot. -/
def marshalQueryResponses (q : QueryResponses) : String :=
  q.serialNumber ++ "|" ++ q.productName ++ "|" ++ q.buildVersion ++ "|" ++
  q.deviceName ++ "|" ++ q.imei ++ "|" ++ q.meid ++ "|" ++ q.model ++ "|" ++
  q.osVersion

/-- device.JsonNullString.Scan of a string value: always valid (a Go string
is never the SQL NULL value). -/
def nullStringScan (s : String) : NullString := ⟨s, true⟩

/-- sql.NullInt64.Scan at its documented contract: an absent value yields
NULL, a present value yields that value. -/
def nullInt64Scan : Option Int → NullInt64
  | none => ⟨0, false⟩
  | some v => ⟨v, true⟩

/-- The DeviceApplication row the Go loop builds from one reported entry:
empty strings become NULL columns, absent sizes stay NULL. -/
def toDeviceApplication (deviceUUID : String) (item : ApplicationListItem) :
    DeviceApplication :=
  { deviceUUID := deviceUUID
    name := item.name
    identifier := ⟨item.identifier, item.identifier != ""⟩
    shortVersion := ⟨item.shortVersion, item.shortVersion != ""⟩
    version := ⟨item.version, item.version != ""⟩
    bundleSize := nullInt64Scan item.bundleSize
    dynamicSize := nullInt64Scan item.dynamicSize }

/-- The per-entry insert loop of ackInstalledApplicationList: inserts each
reported entry in order, stopping with a wrapped error at the first failing
insert and keeping the rows inserted so far. -/
def insertApps (s : AppStore) (deviceUUID : String) :
    List ApplicationListItem → AppStore × Option String
  | [] => (s, none)
  | item :: rest =>
    let r := newDeviceApp s (toDeviceApplication deviceUUID item)
    match r.2 with
    | some e => (r.1, some ("inserting an application for device: " ++ e))
    | none => insertApps r.1 deviceUUID rest

/-- service.ackQueryResponses: resolve the device by serial number and UDID;
zero matches is an orphan error, more than one an ambiguous-identity error;
exactly one match has its attribute fields overwritten and is saved. -/
def ackQueryResponses (st : State) (req : Response) : State × Option String :=
  match devicesBySerialUDID st.devices req.queryResponses.serialNumber req.udid with
  | [] => (st, some "no enrolled device matches the one responding")
  | [existing] =>
    let existing :=
      { existing with
        lastCheckin := st.now
        lastQueryResponse := marshalQueryResponses req.queryResponses
        productName := req.queryResponses.productName
        buildVersion := req.queryResponses.buildVersion
        deviceName := req.queryResponses.deviceName
        imei := req.queryResponses.imei
        meid := req.queryResponses.meid
        model := req.queryResponses.model
        osVersion := req.queryResponses.osVersion
        serialNumber := nullStringScan req.queryResponses.serialNumber }
    ({ st with devices := saveDevice st.devices existing }, none)
  | _ => (st, some ("expected a single device for udid: " ++ req.udid ++
      ", serial number: " ++ req.queryResponses.serialNumber ++
      ", but got more than one."))

/-- service.ackInstalledApplicationList: resolve the device by UDID, delete
every existing row for it, then insert one row per reported entry; a failing
insert aborts with the rows inserted so far kept. -/
def ackInstalledApplicationList (st : State) (req : Response) :
    State × Option String :=
  match getDeviceByUDID st.devices req.udid with
  | .error e => (st, some ("getting a device record by udid: " ++ e))
  | .ok dev =>
    let apps1 := deleteDeviceApplications st.apps dev.uuid
    let r := insertApps apps1 dev.uuid req.installedApplicationList
    ({ st with apps := r.1 }, r.2)

/-- service.ackCertificateList: resolve the device by UDID, then replace its
certificate rows with the reported list in one store call. -/
def ackCertificateList (st : State) (req : Response) : State × Option String :=
  match getDeviceByUDID st.devices req.udid with
  | .error e => (st, some ("getting a device record by udid: " ++ e))
  | .ok dev =>
    let new := req.certificateList.map (fun c =>
      Certificate.mk c.commonName c.isIdentity c.data dev.uuid)
    ({ st with certs := replaceCertificatesByDeviceUUID st.certs dev.uuid new },
     none)

/-- service.checkRequeue: read the device's awaiting-configuration flag; if
set, enqueue one DeviceConfigured command and report a count of one. -/
def checkRequeue (st : State) (deviceUDID : String) :
    State × Nat × Option String :=
  match getDeviceByUDID st.devices deviceUDID with
  | .error e => (st, 0, some ("check and requeue: " ++ e))
  | .ok existing =>
    if existing.awaitingConfiguration then
      let r := newCommand st.commands deviceUDID "DeviceConfigured"
      ({ st with commands := r.1 }, 1, none)
    else (st, 0, none)

/-- The request type the dispatcher switches on: the found metadata's request
type, or the zero value when the lookup fails (the Go code ignores the Find
error, so an unknown command falls to the default arm). -/
def resolvedType (st : State) (req : Response) : String :=
  match findCommand st.commands req.commandUUID with
  | some cmd => cmd.requestType
  | none => ""

/-- The type-directed dispatch of service.Acknowledge: route the response to
the reconciliation routine selected by the original request type; any other
type is a no-op. -/
def dispatch (st : State) (req : Response) : State × Option String :=
  if resolvedType st req = "DeviceInformation" then ackQueryResponses st req
  else if resolvedType st req = "InstalledApplicationList" then
    ackInstalledApplicationList st req
  else if resolvedType st req = "CertificateList" then ackCertificateList st req
  else (st, none)

/-- service.Acknowledge: dispatch on the resolved request type; a failing
reconciliation returns its error with count zero before any removal; on
success remove the command, and when the queue drained to zero evaluate the
auto-requeue rule.  The result is the final store state, the remaining
count, and the error if any. -/
def Acknowledge (st : State) (req : Response) : State × Nat × Option String :=
  match (dispatch st req).2 with
  | some e => ((dispatch st req).1, 0, some e)
  | none =>
    let r := deleteCommand (dispatch st req).1.commands req.udid req.commandUUID
    let st2 : State := { (dispatch st req).1 with commands := r.1 }
    if r.2 = 0 then checkRequeue st2 req.udid
    else (st2, r.2, none)

/-- service.FailCommand: delegate directly to Remove; no reconciliation, no
auto-requeue evaluation. -/
def FailCommand (st : State) (req : Response) : State × Nat :=
  let r := deleteCommand st.commands req.udid req.commandUUID
  ({ st with commands := r.1 }, r.2)

/-- The Application Inventory states a concurrent reader can observe during
the per-entry insert loop: the store state after each insert call (the loop
stops after the first failing insert). -/
def insertAppsTrace (s : AppStore) (deviceUUID : String) :
    List ApplicationListItem → List AppStore
  | [] => []
  | item :: rest =>
    let r := newDeviceApp s (toDeviceApplication deviceUUID item)
    match r.2 with
    | some _ => [r.1]
    | none => r.1 :: insertAppsTrace r.1 deviceUUID rest

/-- The Application Inventory states a concurrent reader can observe during
ackInstalledApplicationList: the state before the call, the state after the
delete-all store call, and the state after each insert call. -/
def ackInstalledApplicationListTrace (st : State) (req : Response) :
    List AppStore :=
  match getDeviceByUDID st.devices req.udid with
  | .error _ => [st.apps]
  | .ok dev =>
    let apps1 := deleteDeviceApplications st.apps dev.uuid
    st.apps :: apps1 :: insertAppsTrace apps1 dev.uuid req.installedApplicationList

/-- The Certificate Inventory states a concurrent reader can observe during
ackCertificateList: the state before the call and the state after the single
replace-all store call. -/
def ackCertificateListTrace (st : State) (req : Response) : List CertStore :=
  match getDeviceByUDID st.devices req.udid with
  | .error _ => [st.certs]
  | .ok dev =>
    let new := req.certificateList.map (fun c =>
      Certificate.mk c.commonName c.isIdentity c.data dev.uuid)
    [st.certs, replaceCertificatesByDeviceUUID st.certs dev.uuid new]

/-! Concrete fixtures used by the witness and counterexample theorems. -/

/-- A device record with the given identifiers, flag, and blank attributes. -/
def mkDevice (uuid udid serial : String) (awaiting : Bool) : Device :=
  ⟨uuid, udid, ⟨serial, true⟩, "", "", "", "", "", "", "", "", 0, awaiting⟩

/-- A query-response section reporting the given serial number. -/
def mkQR (serial : String) : QueryResponses :=
  ⟨serial, "p", "b", "n", "i", "m", "mo", "o"⟩

/-- A response with the given identifiers and empty payload sections. -/
def mkResponse (udid cuuid serial : String) : Response :=
  ⟨udid, cuuid, mkQR serial, [], []⟩

/-- A state assembled from explicit store contents (current time fixed). -/
def mkState (ds : List Device) (apps fail : List DeviceApplication)
    (certs : List Certificate) (queue meta : List Command) : State :=
  ⟨⟨ds⟩, ⟨apps, fail⟩, ⟨certs⟩, ⟨queue, meta, 0⟩, 7⟩

/-- C1 witness fixture: a queued command whose metadata is unknown. -/
def stW1 : State :=
  mkState [mkDevice "u1" "d1" "s1" false] [] [] [] [⟨"c1", "d1", "NoOp"⟩] []

/-- C1 witness fixture: the response acknowledging the unknown command. -/
def reqW1 : Response := mkResponse "d1" "c1" "s1"

/-- C2 witness fixture: a DeviceInformation command with an empty registry,
so the reconciliation routine fails. -/
def stW2 : State :=
  mkState [] [] [] [] [⟨"c1", "d1", "DeviceInformation"⟩]
    [⟨"c1", "d1", "DeviceInformation"⟩]

/-- C2 witness fixture: the acknowledging response. -/
def reqW2 : Response := mkResponse "d1" "c1" "s1"

/-- C3 witness fixture: one queued command for a device that awaits
configuration. -/
def stW3 : State :=
  mkState [mkDevice "u1" "d1" "s1" true] [] [] [] [⟨"c1", "d1", "NoOp"⟩]
    [⟨"c1", "d1", "NoOp"⟩]

/-- C3 witness fixture: the acknowledging response. -/
def reqW3 : Response := mkResponse "d1" "c1" "s1"

/-- C5 witness fixture: a DeviceInformation command whose reported serial
matches no enrolled device. -/
def stW5 : State :=
  mkState [mkDevice "u1" "d1" "s2" false] [] [] []
    [⟨"c1", "d1", "DeviceInformation"⟩] [⟨"c1", "d1", "DeviceInformation"⟩]

/-- C5 witness fixture: the acknowledging response. -/
def reqW5 : Response := mkResponse "d1" "c1" "s1"

/-- C6 witness fixture: two enrolled devices share the UDID/serial pair. -/
def stW6 : State :=
  mkState [mkDevice "u1" "d1" "s1" false, mkDevice "u2" "d1" "s1" false]
    [] [] [] [⟨"c1", "d1", "DeviceInformation"⟩]
    [⟨"c1", "d1", "DeviceInformation"⟩]

/-- C6 witness fixture: the acknowledging response. -/
def reqW6 : Response := mkResponse "d1" "c1" "s1"

/-- A pre-existing Application Inventory row for device u1. -/
def oldAppRow : DeviceApplication :=
  ⟨"u1", "Old", ⟨"old.id", true⟩, ⟨"1", true⟩, ⟨"1.0", true⟩, ⟨5, true⟩,
    ⟨6, true⟩⟩

/-- C7 witness fixture: an InstalledApplicationList command with a prior
inventory row present. -/
def stW7 : State :=
  mkState [mkDevice "u1" "d1" "s1" false] [oldAppRow] [] []
    [⟨"c1", "d1", "InstalledApplicationList"⟩]
    [⟨"c1", "d1", "InstalledApplicationList"⟩]

/-- C7 witness fixture: the response reports one application with every
optional field absent. -/
def reqW7 : Response :=
  { mkResponse "d1" "c1" "s1" with
    installedApplicationList := [⟨"App", "", "", "", none, none⟩] }

/-- C8 counterexample fixture: a queued command for a device that is absent
from the registry, so the auto-requeue evaluation fails after removal. -/
def stX8 : State := mkState [] [] [] [] [⟨"c1", "d1", "NoOp"⟩] []

/-- C8 counterexample fixture: the acknowledging response. -/
def reqX8 : Response := mkResponse "d1" "c1" "s1"

/-- C8 witness fixture: a reconciliation-stage failure (DeviceInformation
with an empty registry). -/
def stW8 : State :=
  mkState [] [] [] [] [⟨"c2", "d2", "DeviceInformation"⟩]
    [⟨"c2", "d2", "DeviceInformation"⟩]

/-- C8 witness fixture: the acknowledging response. -/
def reqW8 : Response := mkResponse "d2" "c2" "s1"

/-- C9 counterexample fixture: a device with a non-empty prior Application
Inventory. -/
def stX9 : State :=
  mkState [mkDevice "u1" "d1" "s1" false] [oldAppRow] [] [] [] []

/-- C9 counterexample fixture: the response reports a non-empty list. -/
def reqX9 : Response :=
  { mkResponse "d1" "c1" "s1" with
    installedApplicationList := [⟨"New", "new.id", "2", "2.0", some 9, none⟩] }

/-- C9 witness fixture: a device with a prior certificate row. -/
def stW9 : State :=
  mkState [mkDevice "u1" "d1" "s1" false] [] []
    [⟨"old-cn", false, [1, 2], "u1"⟩] [] []

/-- C9 witness fixture: the response reports one certificate. -/
def reqW9 : Response :=
  { mkResponse "d1" "c1" "s1" with
    certificateList := [⟨"new-cn", true, [3]⟩] }

/-- C10 fixture: the first reported application entry (its insert succeeds). -/
def itemA : ApplicationListItem := ⟨"A", "a.id", "1", "1.0", some 1, some 2⟩

/-- C10 fixture: the second reported application entry (its insert fails). -/
def itemB : ApplicationListItem := ⟨"B", "b.id", "2", "2.0", some 3, some 4⟩

/-- C10 witness fixture: the app store refuses to persist the row built from
the second entry. -/
def stW10 : State :=
  mkState [mkDevice "u1" "d1" "s1" false] [oldAppRow]
    [toDeviceApplication "u1" itemB] []
    [⟨"c1", "d1", "InstalledApplicationList"⟩]
    [⟨"c1", "d1", "InstalledApplicationList"⟩]

/-- C10 witness fixture: the response reports both entries. -/
def reqW10 : Response :=
  { mkResponse "d1" "c1" "s1" with installedApplicationList := [itemA, itemB] }

/-! Shared helper lemmas. -/

/-- checkRequeue only touches the command store: registry and inventories
come back unchanged. -/
theorem checkRequeue_preserves (st : State) (u : String) :
    (checkRequeue st u).1.devices = st.devices ∧
    (checkRequeue st u).1.apps = st.apps ∧
    (checkRequeue st u).1.certs = st.certs := by
  unfold checkRequeue
  cases getDeviceByUDID st.devices u with
  | error e => exact ⟨rfl, rfl, rfl⟩
  | ok d => cases hb : d.awaitingConfiguration <;> simp [hb]

/-- A failing checkRequeue leaves the whole state unchanged. -/
theorem checkRequeue_error_state (st : State) (u : String) (e : String)
    (h : (checkRequeue st u).2.2 = some e) : (checkRequeue st u).1 = st := by
  unfold checkRequeue at h ⊢
  cases hg : getDeviceByUDID st.devices u with
  | error e' => rfl
  | ok d =>
    rw [hg] at h
    cases hb : d.awaitingConfiguration
    · simp [hb]
    · simp [hb] at h

/-- ackQueryResponses never touches the command store. -/
theorem ackQueryResponses_commands (st : State) (req : Response) :
    (ackQueryResponses st req).1.commands = st.commands := by
  unfold ackQueryResponses
  split <;> rfl

/-- ackInstalledApplicationList never touches the command store. -/
theorem ackInstalledApplicationList_commands (st : State) (req : Response) :
    (ackInstalledApplicationList st req).1.commands = st.commands := by
  unfold ackInstalledApplicationList
  split <;> rfl

/-- ackCertificateList never touches the command store. -/
theorem ackCertificateList_commands (st : State) (req : Response) :
    (ackCertificateList st req).1.commands = st.commands := by
  unfold ackCertificateList
  split <;> rfl

/-- The dispatch step never touches the command store: reconciliation reads
and writes only the registry and the inventories. -/
theorem dispatch_commands (st : State) (req : Response) :
    (dispatch st req).1.commands = st.commands := by
  unfold dispatch
  split
  · exact ackQueryResponses_commands st req
  · split
    · exact ackInstalledApplicationList_commands st req
    · split
      · exact ackCertificateList_commands st req
      · rfl

/-- When every insert succeeds, the insert loop appends exactly the rows
built from the reported entries and leaves the failure set unchanged. -/
theorem insertApps_ok (u : String) :
    ∀ (items : List ApplicationListItem) (s : AppStore),
      (insertApps s u items).2 = none →
      (insertApps s u items).1 =
        ⟨s.apps ++ items.map (toDeviceApplication u), s.failOn⟩ := by
  intro items
  induction items with
  | nil => intro s _; simp [insertApps]
  | cons item rest ih =>
    intro s h
    by_cases hm : toDeviceApplication u item ∈ s.failOn
    · exfalso
      simp [insertApps, newDeviceApp, hm] at h
    · simp [insertApps, newDeviceApp, hm] at h ⊢
      rw [ih _ h]
      simp

/-- When the inserts of the prefix succeed and the next insert fails, the
insert loop stops there: exactly the prefix rows were appended and the
wrapped insert error is returned. -/
theorem insertApps_fail (u : String) (item : ApplicationListItem)
    (l₂ : List ApplicationListItem) :
    ∀ (l₁ : List ApplicationListItem) (s : AppStore),
      (∀ x ∈ l₁, toDeviceApplication u x ∉ s.failOn) →
      toDeviceApplication u item ∈ s.failOn →
      insertApps s u (l₁ ++ item :: l₂) =
        (⟨s.apps ++ l₁.map (toDeviceApplication u), s.failOn⟩,
         some ("inserting an application for device: " ++ "insert failed")) := by
  intro l₁
  induction l₁ with
  | nil =>
    intro s _ hfail
    simp [insertApps, newDeviceApp, hfail]
  | cons x xs ih =>
    intro s hok hfail
    have hx := hok x (List.mem_cons_self x xs)
    have hrec := ih ⟨s.apps ++ [toDeviceApplication u x], s.failOn⟩
      (fun y hy => hok y (List.mem_cons_of_mem x hy)) hfail
    simp only [List.cons_append]
    simp [insertApps, newDeviceApp, hx, hrec]

/-- Rows that survive the delete-all for a device are not that device's;
filtering them back for the device yields nothing. -/
theorem filter_deleted_self (l : List DeviceApplication) (u : String) :
    (l.filter (fun a => a.deviceUUID != u)).filter
      (fun a => a.deviceUUID == u) = [] := by
  induction l with
  | nil => rfl
  | cons a t ih =>
    by_cases h : a.deviceUUID = u <;> simp [List.filter_cons, h, ih]

/-- Every row built for a device by the insert loop carries that device's
surrogate identifier, so filtering for the device keeps them all. -/
theorem filter_mapped_self (u : String) (items : List ApplicationListItem) :
    (items.map (toDeviceApplication u)).filter
      (fun a => a.deviceUUID == u) = items.map (toDeviceApplication u) := by
  induction items with
  | nil => rfl
  | cons item rest ih => simp [toDeviceApplication, ih]

/-- When the dispatch step succeeds, the rest of Acknowledge (removal and
auto-requeue) leaves the registry and the inventories as dispatch left
them. -/
theorem acknowledge_stores_of_dispatch_ok (st : State) (req : Response)
    (h : (dispatch st req).2 = none) :
    (Acknowledge st req).1.devices = (dispatch st req).1.devices ∧
    (Acknowledge st req).1.apps = (dispatch st req).1.apps ∧
    (Acknowledge st req).1.certs = (dispatch st req).1.certs := by
  unfold Acknowledge
  rw [h]
  dsimp only
  split
  · exact checkRequeue_preserves _ _
  · exact ⟨rfl, rfl, rfl⟩

/-- checkRequeue's two outcomes when the device record is found: with the
awaiting-configuration flag set it enqueues one DeviceConfigured command and
reports one; with the flag clear it changes nothing and reports zero. -/
theorem checkRequeue_flag (st : State) (u : String) (dev : Device)
    (hdev : getDeviceByUDID st.devices u = Except.ok dev) :
    (dev.awaitingConfiguration = true →
      checkRequeue st u =
        ({ st with commands := (newCommand st.commands u "DeviceConfigured").1 },
         1, none)) ∧
    (dev.awaitingConfiguration = false →
      checkRequeue st u = (st, 0, none)) := by
  unfold checkRequeue
  rw [hdev]
  constructor <;> intro hb <;> simp [hb]

/-! Claim theorems. -/

/-- C1: acknowledging a response whose command identifier is unknown to the
Command Store still goes through: no reconciliation happens (registry and
both inventories are unchanged) and Acknowledge behaves exactly as the
removal followed, when the remaining count is zero, by the auto-requeue
evaluation. -/
theorem acknowledge_unknown_command (st : State) (req : Response)
    (h : findCommand st.commands req.commandUUID = none) :
    (Acknowledge st req).1.devices = st.devices ∧
    (Acknowledge st req).1.apps = st.apps ∧
    (Acknowledge st req).1.certs = st.certs ∧
    Acknowledge st req =
      (let r := deleteCommand st.commands req.udid req.commandUUID
       let st2 : State := { st with commands := r.1 }
       if r.2 = 0 then checkRequeue st2 req.udid else (st2, r.2, none)) := by
  have hres : resolvedType st req = "" := by
    simp [resolvedType, h]
  have hdisp : dispatch st req = (st, none) := by
    unfold dispatch
    rw [hres]
    simp
  have h2 : (dispatch st req).2 = none := by rw [hdisp]
  have hst := acknowledge_stores_of_dispatch_ok st req h2
  refine ⟨?_, ?_, ?_, ?_⟩
  · rw [hst.1, hdisp]
  · rw [hst.2.1, hdisp]
  · rw [hst.2.2, hdisp]
  · unfold Acknowledge
    rw [hdisp]

/-- C1 witness: a queued command whose metadata lookup fails. -/
theorem acknowledge_unknown_command_witness :
    findCommand stW1.commands reqW1.commandUUID = none ∧
    ((Acknowledge stW1 reqW1).1.devices = stW1.devices ∧
     (Acknowledge stW1 reqW1).1.apps = stW1.apps ∧
     (Acknowledge stW1 reqW1).1.certs = stW1.certs ∧
     Acknowledge stW1 reqW1 =
       (let r := deleteCommand stW1.commands reqW1.udid reqW1.commandUUID
        let st2 : State := { stW1 with commands := r.1 }
        if r.2 = 0 then checkRequeue st2 reqW1.udid else (st2, r.2, none))) :=
  ⟨by decide, acknowledge_unknown_command stW1 reqW1 (by decide)⟩

/-- C2: when the selected reconciliation routine fails, Acknowledge returns
that error with count zero and the command store is exactly as before — the
command was not removed from the device's queue. -/
theorem acknowledge_reconciliation_error (st : State) (req : Response)
    (e : String) (h : (dispatch st req).2 = some e) :
    Acknowledge st req = ((dispatch st req).1, 0, some e) ∧
    (Acknowledge st req).1.commands = st.commands := by
  have hack : Acknowledge st req = ((dispatch st req).1, 0, some e) := by
    unfold Acknowledge
    rw [h]
  exact ⟨hack, by rw [hack]; exact dispatch_commands st req⟩

/-- C2 witness: a DeviceInformation reconciliation failure (empty registry)
propagates and leaves the queue untouched. -/
theorem acknowledge_reconciliation_error_witness :
    (dispatch stW2 reqW2).2 =
      some "no enrolled device matches the one responding" ∧
    (Acknowledge stW2 reqW2 = ((dispatch stW2 reqW2).1, 0,
        some "no enrolled device matches the one responding") ∧
     (Acknowledge stW2 reqW2).1.commands = stW2.commands) :=
  ⟨by decide, acknowledge_reconciliation_error stW2 reqW2
    "no enrolled device matches the one responding" (by decide)⟩

/-- C3: when reconciliation succeeded, removal reported zero remaining and
the device record is found, the auto-requeue rule fires exactly on the
awaiting-configuration flag: flag set — one DeviceConfigured command is
appended to the device's queue and the call returns count 1; flag clear —
nothing is enqueued and the call returns count 0. -/
theorem acknowledge_drain_requeue (st : State) (req : Response) (dev : Device)
    (hrec : (dispatch st req).2 = none)
    (hdel : (deleteCommand (dispatch st req).1.commands req.udid
        req.commandUUID).2 = 0)
    (hdev : getDeviceByUDID (dispatch st req).1.devices req.udid =
        Except.ok dev) :
    (dev.awaitingConfiguration = true →
      (Acknowledge st req).2 = (1, none) ∧
      (Acknowledge st req).1.commands.queue =
        (deleteCommand (dispatch st req).1.commands req.udid
            req.commandUUID).1.queue ++
          [⟨"cmd-" ++ toString (dispatch st req).1.commands.nextId, req.udid,
            "DeviceConfigured"⟩]) ∧
    (dev.awaitingConfiguration = false →
      Acknowledge st req =
        ({ (dispatch st req).1 with
            commands := (deleteCommand (dispatch st req).1.commands req.udid
              req.commandUUID).1 }, 0, none)) := by
  have hack : Acknowledge st req =
      checkRequeue
        { (dispatch st req).1 with
          commands := (deleteCommand (dispatch st req).1.commands req.udid
            req.commandUUID).1 } req.udid := by
    unfold Acknowledge
    rw [hrec]
    dsimp only
    rw [if_pos hdel]
  have hflag := checkRequeue_flag
    { (dispatch st req).1 with
      commands := (deleteCommand (dispatch st req).1.commands req.udid
        req.commandUUID).1 } req.udid dev hdev
  constructor
  · intro hb
    rw [hack, (hflag.1 hb)]
    exact ⟨rfl, rfl⟩
  · intro hb
    rw [hack, (hflag.2 hb)]

/-- C3 witness: acknowledging the only queued command of a device that
awaits configuration enqueues DeviceConfigured and returns count 1. -/
theorem acknowledge_drain_requeue_witness :
    (dispatch stW3 reqW3).2 = none ∧
    (deleteCommand (dispatch stW3 reqW3).1.commands reqW3.udid
        reqW3.commandUUID).2 = 0 ∧
    getDeviceByUDID (dispatch stW3 reqW3).1.devices reqW3.udid =
      Except.ok (mkDevice "u1" "d1" "s1" true) ∧
    (Acknowledge stW3 reqW3).2 = (1, none) ∧
    (Acknowledge stW3 reqW3).1.commands.queue =
      (deleteCommand (dispatch stW3 reqW3).1.commands reqW3.udid
          reqW3.commandUUID).1.queue ++
        [⟨"cmd-" ++ toString (dispatch stW3 reqW3).1.commands.nextId,
          reqW3.udid, "DeviceConfigured"⟩] :=
  ⟨by decide, by decide, rfl,
    (acknowledge_drain_requeue stW3 reqW3 (mkDevice "u1" "d1" "s1" true)
      (by decide) (by decide) rfl).1 rfl⟩

/-- C4: FailCommand removes the identified command and returns the remaining
count, leaving everything else untouched; every command queued afterwards
was queued before, so it never enqueues a DeviceConfigured command — even
when the removal drains the queue of a device whose flag is set. -/
theorem failCommand_removes_never_requeues (st : State) (req : Response) :
    (FailCommand st req).1 =
      { st with
        commands := (deleteCommand st.commands req.udid req.commandUUID).1 } ∧
    (FailCommand st req).2 =
      (deleteCommand st.commands req.udid req.commandUUID).2 ∧
    ∀ c ∈ (FailCommand st req).1.commands.queue, c ∈ st.commands.queue := by
  refine ⟨rfl, rfl, ?_⟩
  intro c hc
  simp only [FailCommand, deleteCommand, List.mem_filter] at hc
  exact hc.1

/-- C5: acknowledging a DeviceInformation response whose UDID/serial pair
matches no enrolled device fails with the orphan error and the whole state —
registry, both inventories and the command queue — is unchanged. -/
theorem acknowledge_deviceInformation_orphan (st : State) (req : Response)
    (cmd : Command)
    (hfind : findCommand st.commands req.commandUUID = some cmd)
    (hty : cmd.requestType = "DeviceInformation")
    (hzero : devicesBySerialUDID st.devices req.queryResponses.serialNumber
        req.udid = []) :
    Acknowledge st req =
      (st, 0, some "no enrolled device matches the one responding") := by
  have hres : resolvedType st req = "DeviceInformation" := by
    simp [resolvedType, hfind, hty]
  have hdisp : dispatch st req =
      (st, some "no enrolled device matches the one responding") := by
    unfold dispatch
    rw [hres, if_pos rfl]
    unfold ackQueryResponses
    rw [hzero]
  unfold Acknowledge
  rw [hdisp]

/-- C5 witness: a reported serial that matches no enrolled device. -/
theorem acknowledge_deviceInformation_orphan_witness :
    findCommand stW5.commands reqW5.commandUUID =
      some ⟨"c1", "d1", "DeviceInformation"⟩ ∧
    (⟨"c1", "d1", "DeviceInformation"⟩ : Command).requestType =
      "DeviceInformation" ∧
    devicesBySerialUDID stW5.devices reqW5.queryResponses.serialNumber
      reqW5.udid = [] ∧
    Acknowledge stW5 reqW5 =
      (stW5, 0, some "no enrolled device matches the one responding") :=
  ⟨by decide, by decide, by decide,
    acknowledge_deviceInformation_orphan stW5 reqW5
      ⟨"c1", "d1", "DeviceInformation"⟩ (by decide) (by decide) (by decide)⟩

/-- C6: acknowledging a DeviceInformation response whose UDID/serial pair
matches two or more enrolled devices fails with the ambiguous-identity error
and the whole state is unchanged — no single device is picked. -/
theorem acknowledge_deviceInformation_ambiguous (st : State) (req : Response)
    (cmd : Command) (d1 d2 : Device) (ds : List Device)
    (hfind : findCommand st.commands req.commandUUID = some cmd)
    (hty : cmd.requestType = "DeviceInformation")
    (hmany : devicesBySerialUDID st.devices req.queryResponses.serialNumber
        req.udid = d1 :: d2 :: ds) :
    Acknowledge st req =
      (st, 0, some ("expected a single device for udid: " ++ req.udid ++
        ", serial number: " ++ req.queryResponses.serialNumber ++
        ", but got more than one.")) := by
  have hres : resolvedType st req = "DeviceInformation" := by
    simp [resolvedType, hfind, hty]
  have hdisp : dispatch st req =
      (st, some ("expected a single device for udid: " ++ req.udid ++
        ", serial number: " ++ req.queryResponses.serialNumber ++
        ", but got more than one.")) := by
    unfold dispatch
    rw [hres, if_pos rfl]
    unfold ackQueryResponses
    rw [hmany]
  unfold Acknowledge
  rw [hdisp]

/-- C6 witness: two enrolled devices share one UDID/serial pair. -/
theorem acknowledge_deviceInformation_ambiguous_witness :
    findCommand stW6.commands reqW6.commandUUID =
      some ⟨"c1", "d1", "DeviceInformation"⟩ ∧
    devicesBySerialUDID stW6.devices reqW6.queryResponses.serialNumber
      reqW6.udid =
      [mkDevice "u1" "d1" "s1" false, mkDevice "u2" "d1" "s1" false] ∧
    Acknowledge stW6 reqW6 =
      (stW6, 0, some ("expected a single device for udid: " ++ reqW6.udid ++
        ", serial number: " ++ reqW6.queryResponses.serialNumber ++
        ", but got more than one.")) :=
  ⟨by decide, by decide,
    acknowledge_deviceInformation_ambiguous stW6 reqW6
      ⟨"c1", "d1", "DeviceInformation"⟩ (mkDevice "u1" "d1" "s1" false)
      (mkDevice "u2" "d1" "s1" false) [] (by decide) (by decide) (by decide)⟩

/-- Reading back the device's rows after a delete-all followed by appending
its freshly built rows yields exactly the freshly built rows. -/
theorem appsFor_delete_insert (s : AppStore) (u : String)
    (items : List ApplicationListItem) :
    appsFor ⟨(deleteDeviceApplications s u).apps ++
      items.map (toDeviceApplication u), s.failOn⟩ u =
      items.map (toDeviceApplication u) := by
  unfold appsFor deleteDeviceApplications
  rw [List.filter_append, filter_deleted_self, filter_mapped_self]
  simp

/-- The dispatch step routes an InstalledApplicationList response to its
reconciliation routine. -/
theorem dispatch_appList (st : State) (req : Response) (cmd : Command)
    (hfind : findCommand st.commands req.commandUUID = some cmd)
    (hty : cmd.requestType = "InstalledApplicationList") :
    dispatch st req = ackInstalledApplicationList st req := by
  have hres : resolvedType st req = "InstalledApplicationList" := by
    simp [resolvedType, hfind, hty]
  unfold dispatch
  rw [hres, if_neg (by decide), if_pos rfl]

/-- The shape of ackInstalledApplicationList once the device is resolved:
delete-all for the device, then the insert loop over the reported list. -/
theorem ackInstalledApplicationList_shape (st : State) (req : Response)
    (dev : Device) (hdev : getDeviceByUDID st.devices req.udid = Except.ok dev) :
    ackInstalledApplicationList st req =
      ({ st with apps := (insertApps (deleteDeviceApplications st.apps dev.uuid)
          dev.uuid req.installedApplicationList).1 },
       (insertApps (deleteDeviceApplications st.apps dev.uuid) dev.uuid
          req.installedApplicationList).2) := by
  unfold ackInstalledApplicationList
  rw [hdev]

/-- C7: successfully acknowledging an InstalledApplicationList response
leaves the device's Application Inventory equal to exactly the rows built
from the reported list — no row from any prior list survives — and every
optional field that is absent in the report is stored as absent (an invalid
NULL column), never coerced to zero or to an empty string. -/
theorem acknowledge_appList_replace (st : State) (req : Response)
    (cmd : Command) (dev : Device)
    (hfind : findCommand st.commands req.commandUUID = some cmd)
    (hty : cmd.requestType = "InstalledApplicationList")
    (hdev : getDeviceByUDID st.devices req.udid = Except.ok dev)
    (hok : (ackInstalledApplicationList st req).2 = none) :
    appsFor (Acknowledge st req).1.apps dev.uuid =
      req.installedApplicationList.map (toDeviceApplication dev.uuid) ∧
    ∀ item ∈ req.installedApplicationList,
      (item.identifier = "" →
        (toDeviceApplication dev.uuid item).identifier.valid = false) ∧
      (item.shortVersion = "" →
        (toDeviceApplication dev.uuid item).shortVersion.valid = false) ∧
      (item.version = "" →
        (toDeviceApplication dev.uuid item).version.valid = false) ∧
      (item.bundleSize = none →
        (toDeviceApplication dev.uuid item).bundleSize.valid = false) ∧
      (item.dynamicSize = none →
        (toDeviceApplication dev.uuid item).dynamicSize.valid = false) := by
  have hdisp := dispatch_appList st req cmd hfind hty
  have hail := ackInstalledApplicationList_shape st req dev hdev
  have hnone : (insertApps (deleteDeviceApplications st.apps dev.uuid) dev.uuid
      req.installedApplicationList).2 = none := by
    rw [hail] at hok
    exact hok
  have happ := insertApps_ok dev.uuid req.installedApplicationList
    (deleteDeviceApplications st.apps dev.uuid) hnone
  have h2 : (dispatch st req).2 = none := by
    rw [hdisp]
    exact hok
  constructor
  · have hst := (acknowledge_stores_of_dispatch_ok st req h2).2.1
    rw [hst, hdisp, hail]
    dsimp only
    rw [happ]
    exact appsFor_delete_insert st.apps dev.uuid req.installedApplicationList
  · intro item _
    refine ⟨?_, ?_, ?_, ?_, ?_⟩ <;> intro h <;>
      simp [toDeviceApplication, nullInt64Scan, h]

/-- C7 witness: replacing a populated prior inventory with a one-entry list
whose optional fields are all absent. -/
theorem acknowledge_appList_replace_witness :
    findCommand stW7.commands reqW7.commandUUID =
      some ⟨"c1", "d1", "InstalledApplicationList"⟩ ∧
    getDeviceByUDID stW7.devices reqW7.udid =
      Except.ok (mkDevice "u1" "d1" "s1" false) ∧
    (ackInstalledApplicationList stW7 reqW7).2 = none ∧
    appsFor (Acknowledge stW7 reqW7).1.apps (mkDevice "u1" "d1" "s1" false).uuid =
      reqW7.installedApplicationList.map
        (toDeviceApplication (mkDevice "u1" "d1" "s1" false).uuid) :=
  ⟨by decide, rfl, by decide,
    (acknowledge_appList_replace stW7 reqW7
      ⟨"c1", "d1", "InstalledApplicationList"⟩ (mkDevice "u1" "d1" "s1" false)
      (by decide) (by decide) rfl (by decide)).1⟩

/-- C8 counterexample: acknowledging the only queued command of a device
that is missing from the registry fails (the auto-requeue evaluation cannot
read the flag), yet the command has already been removed from the queue —
refuting the claim that every failing Acknowledge leaves the command
queued. -/
theorem acknowledge_error_with_command_removed :
    (Acknowledge stX8 reqX8).2.2 = some "check and requeue: device not found" ∧
    commandsFor stX8.commands "d1" ≠ [] ∧
    commandsFor (Acknowledge stX8 reqX8).1.commands "d1" = [] := by
  decide

/-- C8 (amended): a failing Acknowledge leaves the acknowledged command
queued exactly when the failure arose in the reconciliation stage, before
removal (the command store is then untouched); a failure arising in the
auto-requeue evaluation occurs after a successful removal that drained the
queue, so the command store reflects the removal. -/
theorem acknowledge_error_queue_stage (st : State) (req : Response)
    (e : String) (h : (Acknowledge st req).2.2 = some e) :
    ((dispatch st req).2 = some e ∧
      (Acknowledge st req).1.commands = st.commands) ∨
    ((dispatch st req).2 = none ∧
      (deleteCommand st.commands req.udid req.commandUUID).2 = 0 ∧
      (Acknowledge st req).1.commands =
        (deleteCommand st.commands req.udid req.commandUUID).1) := by
  have hcmd := dispatch_commands st req
  cases hd : (dispatch st req).2 with
  | some e' =>
    have hack : Acknowledge st req = ((dispatch st req).1, 0, some e') := by
      unfold Acknowledge
      rw [hd]
    rw [hack] at h
    have he : e' = e := Option.some.inj h
    subst he
    left
    refine ⟨rfl, ?_⟩
    rw [hack]
    exact hcmd
  | none =>
    have hack0 : Acknowledge st req =
        (let r := deleteCommand (dispatch st req).1.commands req.udid
          req.commandUUID
         let st2 : State := { (dispatch st req).1 with commands := r.1 }
         if r.2 = 0 then checkRequeue st2 req.udid else (st2, r.2, none)) := by
      unfold Acknowledge
      rw [hd]
    by_cases hz : (deleteCommand (dispatch st req).1.commands req.udid
        req.commandUUID).2 = 0
    · right
      have hack : Acknowledge st req =
          checkRequeue
            { (dispatch st req).1 with
              commands := (deleteCommand (dispatch st req).1.commands req.udid
                req.commandUUID).1 } req.udid := by
        rw [hack0]
        dsimp only
        rw [if_pos hz]
      rw [hack] at h
      have hstate := checkRequeue_error_state _ _ _ h
      rw [hcmd] at hz
      refine ⟨rfl, hz, ?_⟩
      rw [hack, hstate]
      dsimp only
      rw [hcmd]
    · exfalso
      have hack : Acknowledge st req =
          ({ (dispatch st req).1 with
              commands := (deleteCommand (dispatch st req).1.commands req.udid
                req.commandUUID).1 },
           (deleteCommand (dispatch st req).1.commands req.udid
              req.commandUUID).2, none) := by
        rw [hack0]
        dsimp only
        rw [if_neg hz]
      rw [hack] at h
      exact Option.noConfusion h

/-- C8 (amended) witness: a reconciliation-stage failure, where the command
store is untouched. -/
theorem acknowledge_error_queue_stage_witness :
    (Acknowledge stW8 reqW8).2.2 =
      some "no enrolled device matches the one responding" ∧
    (((dispatch stW8 reqW8).2 =
        some "no enrolled device matches the one responding" ∧
      (Acknowledge stW8 reqW8).1.commands = stW8.commands) ∨
     ((dispatch stW8 reqW8).2 = none ∧
      (deleteCommand stW8.commands reqW8.udid reqW8.commandUUID).2 = 0 ∧
      (Acknowledge stW8 reqW8).1.commands =
        (deleteCommand stW8.commands reqW8.udid reqW8.commandUUID).1)) :=
  ⟨by decide, acknowledge_error_queue_stage stW8 reqW8
    "no enrolled device matches the one responding" (by decide)⟩

/-- C9 counterexample: during the application replace the state right after
the delete-all store call is observable and shows zero rows for the device,
although both the old and the new snapshot are non-empty — the replace is
not free of an observable empty gap. -/
theorem appList_replace_observable_empty_gap :
    appsFor stX9.apps "u1" ≠ [] ∧
    reqX9.installedApplicationList ≠ [] ∧
    (ackInstalledApplicationList stX9 reqX9).2 = none ∧
    ∃ s ∈ ackInstalledApplicationListTrace stX9 reqX9,
      appsFor s "u1" = [] := by
  decide

/-- C9 (amended): the certificate replace is a single store-level replace
call, so every state a concurrent reader can observe shows either the old or
the new certificate snapshot of the device — there is no intermediate
empty-gap state; the application replace, by contrast, deletes and then
inserts row by row and does expose an empty intermediate state. -/
theorem certList_replace_no_empty_gap (st : State) (req : Response)
    (dev : Device)
    (hdev : getDeviceByUDID st.devices req.udid = Except.ok dev)
    (s : CertStore) (hs : s ∈ ackCertificateListTrace st req) :
    certsFor s dev.uuid = certsFor st.certs dev.uuid ∨
    certsFor s dev.uuid =
      certsFor (ackCertificateList st req).1.certs dev.uuid := by
  unfold ackCertificateListTrace at hs
  rw [hdev] at hs
  simp only [List.mem_cons, List.not_mem_nil, or_false] at hs
  cases hs with
  | inl h1 =>
    left
    rw [h1]
  | inr h2 =>
    right
    rw [h2]
    unfold ackCertificateList
    rw [hdev]

/-- C9 (amended) witness: the state before the replace call is observable
and shows the old snapshot. -/
theorem certList_replace_no_empty_gap_witness :
    getDeviceByUDID stW9.devices reqW9.udid =
      Except.ok (mkDevice "u1" "d1" "s1" false) ∧
    stW9.certs ∈ ackCertificateListTrace stW9 reqW9 ∧
    (certsFor stW9.certs (mkDevice "u1" "d1" "s1" false).uuid =
      certsFor stW9.certs (mkDevice "u1" "d1" "s1" false).uuid ∨
     certsFor stW9.certs (mkDevice "u1" "d1" "s1" false).uuid =
      certsFor (ackCertificateList stW9 reqW9).1.certs
        (mkDevice "u1" "d1" "s1" false).uuid) :=
  ⟨rfl, by decide,
    certList_replace_no_empty_gap stW9 reqW9 (mkDevice "u1" "d1" "s1" false)
      rfl stW9.certs (by decide)⟩

/-- C10: when the per-entry insert fails at entry i of the reported list,
Acknowledge returns the wrapped insert error with count zero, the device's
Application Inventory is left holding exactly the rows built from the first
i entries (prior rows already deleted, later entries never inserted), and
the command store is untouched — the command stays queued. -/
theorem acknowledge_appList_partial_failure (st : State) (req : Response)
    (cmd : Command) (dev : Device) (l₁ l₂ : List ApplicationListItem)
    (item : ApplicationListItem)
    (hfind : findCommand st.commands req.commandUUID = some cmd)
    (hty : cmd.requestType = "InstalledApplicationList")
    (hdev : getDeviceByUDID st.devices req.udid = Except.ok dev)
    (hlist : req.installedApplicationList = l₁ ++ item :: l₂)
    (hpre : ∀ x ∈ l₁, toDeviceApplication dev.uuid x ∉ st.apps.failOn)
    (hfail : toDeviceApplication dev.uuid item ∈ st.apps.failOn) :
    (Acknowledge st req).2 =
      (0, some ("inserting an application for device: " ++ "insert failed")) ∧
    appsFor (Acknowledge st req).1.apps dev.uuid =
      l₁.map (toDeviceApplication dev.uuid) ∧
    (Acknowledge st req).1.commands = st.commands := by
  have hdisp := dispatch_appList st req cmd hfind hty
  have hail := ackInstalledApplicationList_shape st req dev hdev
  have hins := insertApps_fail dev.uuid item l₂ l₁
    (deleteDeviceApplications st.apps dev.uuid) hpre hfail
  rw [hlist] at hail
  rw [hins] at hail
  have hd2 : (dispatch st req).2 =
      some ("inserting an application for device: " ++ "insert failed") := by
    rw [hdisp, hail]
  have hack : Acknowledge st req = ((dispatch st req).1, 0,
      some ("inserting an application for device: " ++ "insert failed")) := by
    unfold Acknowledge
    rw [hd2]
  refine ⟨by rw [hack], ?_, ?_⟩
  · rw [hack]
    dsimp only
    rw [hdisp, hail]
    dsimp only
    exact appsFor_delete_insert st.apps dev.uuid l₁
  · rw [hack]
    dsimp only
    exact dispatch_commands st req

/-- C10 witness: the second of two reported entries fails to insert; the
inventory holds exactly the row of the first entry and the command stays
queued. -/
theorem acknowledge_appList_partial_failure_witness :
    findCommand stW10.commands reqW10.commandUUID =
      some ⟨"c1", "d1", "InstalledApplicationList"⟩ ∧
    getDeviceByUDID stW10.devices reqW10.udid =
      Except.ok (mkDevice "u1" "d1" "s1" false) ∧
    reqW10.installedApplicationList = [itemA] ++ itemB :: [] ∧
    (∀ x ∈ [itemA], toDeviceApplication "u1" x ∉ stW10.apps.failOn) ∧
    toDeviceApplication "u1" itemB ∈ stW10.apps.failOn ∧
    ((Acknowledge stW10 reqW10).2 =
      (0, some ("inserting an application for device: " ++ "insert failed")) ∧
     appsFor (Acknowledge stW10 reqW10).1.apps "u1" =
      [itemA].map (toDeviceApplication "u1") ∧
     (Acknowledge stW10 reqW10).1.commands = stW10.commands) :=
  ⟨by decide, rfl, rfl, by decide, by decide,
    acknowledge_appList_partial_failure stW10 reqW10
      ⟨"c1", "d1", "InstalledApplicationList"⟩ (mkDevice "u1" "d1" "s1" false)
      [itemA] [] itemB (by decide) (by decide) rfl rfl (by decide) (by decide)⟩

end Connect
